import Mathlib

/-!
Verification of the JsonToPostgres weight-in-motion (WIM) pipeline.

This file gives a shallow embedding of the pipeline's core Python modules:

* `src/database/data_processor.py` — `DataTransformer.transform_data`,
  which flattens one raw JSON snapshot into measurement / VDR / axle tuples;
* `src/database/database.py` — `DatabaseManager.insert_data`, the transactional
  multi-table insert (with its early `session.commit()` after the measurement
  phase and its per-VDR re-insertion of the whole accumulated axle list);
* `src/utils/api_client.py` — `APIClient.fetch_data`, which turns HTTP
  outcomes into either the parsed body or a tagged error dictionary;
* `src/main.py` — `WIMDataProcessingApp`: the health-wait loop,
  `fetch_and_process_data` with its identity-based de-duplication, and the
  bounded retry loop in `run`.

Python values flowing through the pipeline are modelled by the `Json`
inductive; Python's raising semantics (`KeyError`, `TypeError`, ...) by
`Except PyErr`; the database session by an explicit pending/committed state
with an injectable fault oracle; and the polling loops by functions consuming
a finite trace of HTTP outcomes while emitting an event list (fetches,
gateway invocations, sleeps, console reports).
-/

namespace WimPipeline

/-- A JSON value / Python object as it flows through the pipeline.
`num` carries an exact rational standing for a JSON decimal literal;
no claim computes with numbers, they are only copied. -/
inductive Json where
  | null : Json
  | bool (b : Bool) : Json
  | int (n : Int) : Json
  | num (q : Rat) : Json
  | str (s : String) : Json
  | arr (xs : List Json) : Json
  | obj (fs : List (String × Json)) : Json
  deriving Repr

mutual

/-- Structural (Python `==`) equality on `Json`. -/
def Json.beq : Json → Json → Bool
  | .null, .null => true
  | .bool a, .bool b => a == b
  | .int a, .int b => a == b
  | .num a, .num b => a == b
  | .str a, .str b => a == b
  | .arr a, .arr b => Json.beqList a b
  | .obj a, .obj b => Json.beqFields a b
  | _, _ => false

def Json.beqList : List Json → List Json → Bool
  | [], [] => true
  | x :: xs, y :: ys => Json.beq x y && Json.beqList xs ys
  | _, _ => false

def Json.beqFields : List (String × Json) → List (String × Json) → Bool
  | [], [] => true
  | (k1, v1) :: xs, (k2, v2) :: ys => k1 == k2 && Json.beq v1 v2 && Json.beqFields xs ys
  | _, _ => false

end

mutual

theorem Json.beq_iff : ∀ a b : Json, Json.beq a b = true ↔ a = b
  | .null, .null => by simp [Json.beq]
  | .bool _, .bool _ => by simp [Json.beq]
  | .int _, .int _ => by simp [Json.beq]
  | .num _, .num _ => by simp [Json.beq]
  | .str _, .str _ => by simp [Json.beq, beq_iff_eq]
  | .arr a, .arr b => by
      simp only [Json.beq, Json.arr.injEq]
      exact Json.beqList_iff a b
  | .obj a, .obj b => by
      simp only [Json.beq, Json.obj.injEq]
      exact Json.beqFields_iff a b
  | .null, .bool _ => by simp [Json.beq]
  | .null, .int _ => by simp [Json.beq]
  | .null, .num _ => by simp [Json.beq]
  | .null, .str _ => by simp [Json.beq]
  | .null, .arr _ => by simp [Json.beq]
  | .null, .obj _ => by simp [Json.beq]
  | .bool _, .null => by simp [Json.beq]
  | .bool _, .int _ => by simp [Json.beq]
  | .bool _, .num _ => by simp [Json.beq]
  | .bool _, .str _ => by simp [Json.beq]
  | .bool _, .arr _ => by simp [Json.beq]
  | .bool _, .obj _ => by simp [Json.beq]
  | .int _, .null => by simp [Json.beq]
  | .int _, .bool _ => by simp [Json.beq]
  | .int _, .num _ => by simp [Json.beq]
  | .int _, .str _ => by simp [Json.beq]
  | .int _, .arr _ => by simp [Json.beq]
  | .int _, .obj _ => by simp [Json.beq]
  | .num _, .null => by simp [Json.beq]
  | .num _, .bool _ => by simp [Json.beq]
  | .num _, .int _ => by simp [Json.beq]
  | .num _, .str _ => by simp [Json.beq]
  | .num _, .arr _ => by simp [Json.beq]
  | .num _, .obj _ => by simp [Json.beq]
  | .str _, .null => by simp [Json.beq]
  | .str _, .bool _ => by simp [Json.beq]
  | .str _, .int _ => by simp [Json.beq]
  | .str _, .num _ => by simp [Json.beq]
  | .str _, .arr _ => by simp [Json.beq]
  | .str _, .obj _ => by simp [Json.beq]
  | .arr _, .null => by simp [Json.beq]
  | .arr _, .bool _ => by simp [Json.beq]
  | .arr _, .int _ => by simp [Json.beq]
  | .arr _, .num _ => by simp [Json.beq]
  | .arr _, .str _ => by simp [Json.beq]
  | .arr _, .obj _ => by simp [Json.beq]
  | .obj _, .null => by simp [Json.beq]
  | .obj _, .bool _ => by simp [Json.beq]
  | .obj _, .int _ => by simp [Json.beq]
  | .obj _, .num _ => by simp [Json.beq]
  | .obj _, .str _ => by simp [Json.beq]
  | .obj _, .arr _ => by simp [Json.beq]

theorem Json.beqList_iff : ∀ a b : List Json, Json.beqList a b = true ↔ a = b
  | [], [] => by simp [Json.beqList]
  | [], _ :: _ => by simp [Json.beqList]
  | _ :: _, [] => by simp [Json.beqList]
  | x :: xs, y :: ys => by
      simp only [Json.beqList, Bool.and_eq_true, List.cons.injEq]
      exact and_congr (Json.beq_iff x y) (Json.beqList_iff xs ys)

theorem Json.beqFields_iff : ∀ a b : List (String × Json), Json.beqFields a b = true ↔ a = b
  | [], [] => by simp [Json.beqFields]
  | [], _ :: _ => by simp [Json.beqFields]
  | _ :: _, [] => by simp [Json.beqFields]
  | (k1, v1) :: xs, (k2, v2) :: ys => by
      simp only [Json.beqFields, Bool.and_eq_true, List.cons.injEq, Prod.mk.injEq, beq_iff_eq,
        Json.beq_iff v1 v2, Json.beqFields_iff xs ys]

end

instance : DecidableEq Json := fun a b =>
  decidable_of_iff (Json.beq a b = true) (Json.beq_iff a b)

deriving instance DecidableEq for Except

/-- Python exceptions that the embedded code can raise.  `dbFault` stands for a
data/integrity fault raised by the database layer (used for fault injection). -/
inductive PyErr where
  | keyError (k : String)
  | typeError
  | attributeError
  | indexError
  | dbFault
  deriving DecidableEq, Repr

/-- First-match association lookup; Python dicts have unique keys, so this is
plain dictionary lookup. -/
def lookupField : List (String × Json) → String → Option Json
  | [], _ => none
  | (k, v) :: rest, key => if k = key then some v else lookupField rest key

/-- Python `d[k]`: `KeyError` when absent, `TypeError` when `d` is not a dict
(string-keyed subscription of a non-dict raises in Python). -/
def Json.getItem : Json → String → Except PyErr Json
  | .obj fs, k =>
    match lookupField fs k with
    | some v => .ok v
    | none => .error (.keyError k)
  | _, _ => .error .typeError

/-- Python `d.get(k)`: `None` when absent; `AttributeError` when `d` is not a
dict (non-dicts have no `.get`). -/
def Json.getOpt : Json → String → Except PyErr (Option Json)
  | .obj fs, k => .ok (lookupField fs k)
  | _, _ => .error .attributeError

/-- Whether `j` is a dict containing key `k`. -/
def Json.hasKey : Json → String → Bool
  | .obj fs, k => (lookupField fs k).isSome
  | _, _ => false

/-- Total read used on the specification side: the raw value stored under `k`,
`null` when absent or when `j` is not a dict. -/
def Json.getD (j : Json) (k : String) : Json :=
  match j with
  | .obj fs => (lookupField fs k).getD .null
  | _ => .null

/-- Python `for x in j`: lists iterate their elements, strings their
characters, dicts their keys; other values raise `TypeError`. -/
def pyIter : Json → Except PyErr (List Json)
  | .arr xs => .ok xs
  | .str s => .ok (s.toList.map fun c => .str (String.singleton c))
  | .obj fs => .ok (fs.map fun kv => .str kv.1)
  | _ => .error .typeError

/-- The iterated elements of `j`, empty when iteration would raise. -/
def pyIterD (j : Json) : List Json :=
  match pyIter j with
  | .ok xs => xs
  | .error _ => []

/-- Python truthiness of a value. -/
def pyTruthy : Json → Bool
  | .null => false
  | .bool b => b
  | .int n => n != 0
  | .num q => q != 0
  | .str s => s != ""
  | .arr xs => !xs.isEmpty
  | .obj fs => !fs.isEmpty

/-- Sequential effectful map: apply `f` left to right, stopping at the first
raised exception — the evaluation order of a Python loop or tuple display. -/
def exceptMapM (f : α → Except PyErr β) : List α → Except PyErr (List β)
  | [] => .ok []
  | x :: xs =>
    match f x with
    | .error e => .error e
    | .ok y =>
      match exceptMapM f xs with
      | .error e => .error e
      | .ok ys => .ok (y :: ys)

theorem exceptMapM_ok_of_forall {f : α → Except PyErr β} {g : α → β} :
    ∀ {xs : List α}, (∀ x ∈ xs, f x = .ok (g x)) → exceptMapM f xs = .ok (xs.map g)
  | [], _ => rfl
  | x :: xs, h => by
    have hx := h x (List.mem_cons_self x xs)
    have hrest : exceptMapM f xs = .ok (xs.map g) :=
      exceptMapM_ok_of_forall (fun y hy => h y (List.mem_cons_of_mem x hy))
    simp [exceptMapM, hx, hrest]

theorem forall_ok_of_exceptMapM {f : α → Except PyErr β} :
    ∀ {xs : List α} {ys : List β}, exceptMapM f xs = .ok ys → ∀ x ∈ xs, ∃ y, f x = .ok y := by
  intro xs
  induction xs with
  | nil => intro ys _ x hx; cases hx
  | cons x xs ih =>
    intro ys h z hz
    rw [exceptMapM] at h
    cases hfx : f x with
    | error e => rw [hfx] at h; cases h
    | ok y =>
      rw [hfx] at h
      dsimp only at h
      cases hrest : exceptMapM f xs with
      | error e => rw [hrest] at h; cases h
      | ok ys2 =>
        rcases List.mem_cons.mp hz with hz | hz
        · exact ⟨y, hz ▸ hfx⟩
        · exact ih hrest z hz

/-! ## Record Transformer — `src/database/data_processor.py`, `DataTransformer.transform_data` -/

/-- The three top-level keys read into the measurement tuple, in source order
(`json_data["pkMeasurement"], json_data["id"], json_data["timestamp"]`). -/
def measurementKeys : List String := ["pkMeasurement", "id", "timestamp"]

/-- The 25 scalar fields read from `vdr["data"]` into a VDR tuple, in source
order (data_processor.py lines 54–78). -/
def vdrDataFields : List String :=
  ["MetrologicalID", "LaneNo", "ErrorFlag", "WarningFlag", "Direction", "MoveStatus",
   "FrontToFront", "BackToFront", "FrontOverhang", "Duration", "VehicleLength",
   "GrossWeight", "LeftWeight", "RightWeight", "Velocity", "WheelBase", "AxlesCount",
   "MassUnit", "VelocityUnit", "DistanceUnit", "Marked", "MarkedViolations",
   "VehicleID", "StartTime", "StartTimeStr"]

/-- The 19 scalar fields read from an axle object into an axle tuple, in source
order (data_processor.py lines 86–104). -/
def axleFields : List String :=
  ["ID", "GroupID", "Velocity", "Weight", "LeftWheelWeight", "RightWheelWeight",
   "LeftRightImbalance", "Distance", "Track", "PatchLengthRight", "PatchLengthLeft",
   "PatchWidthRight", "PatchWidthLeft", "PositionRight", "PositionLeft",
   "SDTireRight", "SDTireLeft", "TireStatusRight", "TireStatusLeft"]

/-- Read the listed keys from `j` in order, raising at the first failure —
the evaluation of a Python tuple display of subscript expressions. -/
def getFields (j : Json) (ks : List String) : Except PyErr (List Json) :=
  exceptMapM (fun k => j.getItem k) ks

/-- One axle tuple: the literal `None` placeholder for `vdr_id` followed by the
19 axle fields (data_processor.py lines 84–106). -/
def transformAxle (a : Json) : Except PyErr (List Json) :=
  match getFields a axleFields with
  | .error e => .error e
  | .ok fs => .ok (Json.null :: fs)

/-- One iteration of the `for vdr in json_data["vdRs"]` loop body: reads
`vdr["data"]`, then builds the VDR tuple
`(vdr["source"], json_data["pkMeasurement"], <25 data fields>)`, then flattens
every element of `vdr_data["Axles"]` (data_processor.py lines 48–107). -/
def transformVdr (j vdr : Json) : Except PyErr (List Json × List (List Json)) :=
  match vdr.getItem "data" with
  | .error e => .error e
  | .ok vdrData =>
    match vdr.getItem "source" with
    | .error e => .error e
    | .ok src =>
      match j.getItem "pkMeasurement" with
      | .error e => .error e
      | .ok pk =>
        match getFields vdrData vdrDataFields with
        | .error e => .error e
        | .ok flds =>
          match vdrData.getItem "Axles" with
          | .error e => .error e
          | .ok axlesJson =>
            match pyIter axlesJson with
            | .error e => .error e
            | .ok axleList =>
              match exceptMapM transformAxle axleList with
              | .error e => .error e
              | .ok axleEntries => .ok (src :: pk :: flds, axleEntries)

/-- `DataTransformer.transform_data`: builds the single measurement tuple,
then iterates `json_data["vdRs"]` accumulating VDR tuples and (across all
VDRs) axle tuples; any raised exception aborts the whole call with no
partial result. -/
def transform_data (j : Json) :
    Except PyErr (List (List Json) × List (List Json) × List (List Json)) :=
  match getFields j measurementKeys with
  | .error e => .error e
  | .ok m =>
    match j.getItem "vdRs" with
    | .error e => .error e
    | .ok vdRsJson =>
      match pyIter vdRsJson with
      | .error e => .error e
      | .ok vdrList =>
        match exceptMapM (transformVdr j) vdrList with
        | .error e => .error e
        | .ok pairs => .ok ([m], pairs.map Prod.fst, (pairs.map Prod.snd).flatten)

/-! ### Specification-side description of the transform output

These definitions follow the spec's words ("one Measurement, `len(vdRs)`
ReadingGroups, `sum(len(Axles_i))` ComponentReadings; field values are copied
without coercion loss"): they read the raw values directly out of the input.
Comparing `transform_data` with `specTransform` settles the refinement. -/

/-- The elements of the snapshot's `vdRs` array. -/
def vdrsOf (j : Json) : List Json :=
  match j.getD "vdRs" with
  | .arr xs => xs
  | _ => []

/-- The elements of a VDR's `data.Axles` array. -/
def axlesOf (vdr : Json) : List Json :=
  match (vdr.getD "data").getD "Axles" with
  | .arr xs => xs
  | _ => []

/-- Direct-read VDR tuple: source label, owning measurement key, then the 25
scalar fields, all copied verbatim from the raw snapshot. -/
def directVdrTuple (j vdr : Json) : List Json :=
  vdr.getD "source" :: j.getD "pkMeasurement" ::
    vdrDataFields.map fun k => (vdr.getD "data").getD k

/-- Direct-read axle tuple: unset group reference, then the 19 scalar fields
copied verbatim. -/
def directAxleTuple (a : Json) : List Json :=
  Json.null :: axleFields.map a.getD

/-- Spec-side transform output: exactly one measurement tuple, one VDR tuple
per `vdRs` element, and the axle tuples of every VDR in order. -/
def specTransform (j : Json) :
    List (List Json) × List (List Json) × List (List Json) :=
  ([measurementKeys.map j.getD],
   (vdrsOf j).map (directVdrTuple j),
   ((vdrsOf j).map fun v => (axlesOf v).map directAxleTuple).flatten)

/-- A structurally valid raw snapshot in the sense of claim C4: every required
key present in the top-level object, in every `vdRs` element, and in every
element of each `Axles` list, with `vdRs` and `Axles` genuine arrays. -/
def validAxle (a : Json) : Bool :=
  axleFields.all a.hasKey

def validVdr (vdr : Json) : Bool :=
  vdr.hasKey "source" && vdr.hasKey "data" &&
    (vdrDataFields.all (vdr.getD "data").hasKey && (vdr.getD "data").hasKey "Axles" &&
      match (vdr.getD "data").getD "Axles" with
      | .arr axles => axles.all validAxle
      | _ => false)

def validSnapshot (j : Json) : Bool :=
  measurementKeys.all j.hasKey && j.hasKey "vdRs" &&
    (match j.getD "vdRs" with
     | .arr vdrs => vdrs.all validVdr
     | _ => false)

/-- Every required key the transformer dereferences is present: the top-level
keys, and — for each element the `vdRs` iteration actually yields — `source`,
`data`, the 25 data fields, `Axles`, and the 19 fields of each iterated axle.
Weaker than `validSnapshot`: it does not force `vdRs`/`Axles` to be arrays. -/
def requiredKeysPresent (j : Json) : Bool :=
  measurementKeys.all j.hasKey && j.hasKey "vdRs" &&
    (pyIterD (j.getD "vdRs")).all fun vdr =>
      vdr.hasKey "source" && vdr.hasKey "data" &&
        (vdrDataFields.all (vdr.getD "data").hasKey && (vdr.getD "data").hasKey "Axles" &&
          (pyIterD ((vdr.getD "data").getD "Axles")).all fun a => axleFields.all a.hasKey)

/-! ## Source Adapter — `src/utils/api_client.py`, `APIClient.fetch_data` -/

/-- One outcome of the underlying HTTP GET: a 200 response with parsed JSON
body, a response with a non-success status code, or a transport error
(`requests.exceptions.RequestException`). -/
inductive HttpOutcome where
  | success (body : Json)
  | httpError (code : Nat)
  | transportError (msg : String)
  deriving DecidableEq, Repr

/-- `APIClient.fetch_data(endpoint)`: the parsed body on a 200 response,
`{"status": "error", "code": <status>}` on a non-success status, and
`{"status": "error", "message": <str(e)>}` on a transport error.  The
endpoint argument only selects the URL; the returned value depends on the
outcome alone. -/
def fetch_data (_endpoint : String) (o : HttpOutcome) : Json :=
  match o with
  | .success body => body
  | .httpError code => .obj [("status", .str "error"), ("code", .int code)]
  | .transportError msg => .obj [("status", .str "error"), ("message", .str msg)]

/-! ## Persistence Gateway — `src/database/database.py`, `DatabaseManager.insert_data` -/

/-- A committed `measurements` row: the tuple positions 0–2
(pkMeasurement, id, timestamp) read by the `Measurement(...)` constructor. -/
structure MeasurementRow where
  fields : List Json
  deriving DecidableEq, Repr

/-- A committed `vdrs` row: the generated `vdr_id` plus tuple positions 0–26
read by the `VDR(...)` constructor. -/
structure VdrRow where
  vdr_id : Nat
  fields : List Json
  deriving DecidableEq, Repr

/-- A committed `axles` row: the `vdr_id` foreign key actually used at insert
time plus tuple positions 1–19 read by the `Axle(...)` constructor (position 0
is the transformer's placeholder and is dropped). -/
structure AxleRow where
  vdr_id : Nat
  fields : List Json
  deriving DecidableEq, Repr

/-- The observable (committed) database state, plus the autoincrement counter
for `vdrs.vdr_id`. -/
structure Db where
  measurements : List MeasurementRow
  vdrs : List VdrRow
  axles : List AxleRow
  nextVdrKey : Nat
  deriving DecidableEq, Repr

def Db.empty : Db := ⟨[], [], [], 1⟩

/-- The session operations of `insert_data` at which a data/integrity fault
can be injected. -/
inductive InsertStep where
  | addMeasurement (i : Nat)
  | firstCommit
  | addVdr (i : Nat)
  | addAxle (vdrIdx axleIdx : Nat)
  | finalCommit
  deriving DecidableEq, Repr

/-- The fault-free oracle. -/
def noFault : InsertStep → Bool := fun _ => false

/-- `Measurement(pkMeasurement=m_data[0], id=m_data[1], timestamp=m_data[2])`:
reads tuple positions 0–2, raising `IndexError` on a shorter tuple. -/
def mkMeasurementRow (t : List Json) : Except PyErr MeasurementRow :=
  if 2 < t.length then .ok ⟨t.take 3⟩ else .error .indexError

/-- The `VDR(...)` constructor reads tuple positions 0–26. -/
def mkVdrRowFields (t : List Json) : Except PyErr (List Json) :=
  if 26 < t.length then .ok (t.take 27) else .error .indexError

/-- The `Axle(...)` constructor reads tuple positions 1–19 and takes its
`vdr_id` from the just-flushed VDR. -/
def mkAxleRow (key : Nat) (t : List Json) : Except PyErr AxleRow :=
  if 19 < t.length then .ok ⟨key, (t.drop 1).take 19⟩ else .error .indexError

/-- The measurement loop (database.py lines 56–60): construct and add each
measurement row, with a possible injected fault at each add. -/
def insertMeasurements (fault : InsertStep → Bool) :
    Nat → List (List Json) → Except PyErr (List MeasurementRow)
  | _, [] => .ok []
  | i, t :: rest =>
    match mkMeasurementRow t with
    | .error e => .error e
    | .ok row =>
      if fault (.addMeasurement i) then .error .dbFault
      else
        match insertMeasurements fault (i + 1) rest with
        | .error e => .error e
        | .ok rows => .ok (row :: rows)

/-- The inner axle loop (database.py lines 100–123): for ONE flushed VDR with
generated key `key`, construct and add a row for EVERY tuple of the whole
accumulated `axles_data` list. -/
def insertAxles (fault : InsertStep → Bool) (vdrIdx key : Nat) :
    Nat → List (List Json) → Except PyErr (List AxleRow)
  | _, [] => .ok []
  | j, t :: rest =>
    match mkAxleRow key t with
    | .error e => .error e
    | .ok row =>
      if fault (.addAxle vdrIdx j) then .error .dbFault
      else
        match insertAxles fault vdrIdx key (j + 1) rest with
        | .error e => .error e
        | .ok rows => .ok (row :: rows)

/-- The VDR loop (database.py lines 66–123): construct and add the VDR row,
flush (assigning the next autoincrement key), then insert the whole
`axles_data` list against that key, then continue with the next VDR. -/
def insertVdrs (fault : InsertStep → Bool) (axles_data : List (List Json)) :
    Nat → Nat → List (List Json) → Except PyErr (List VdrRow × List AxleRow)
  | _, _, [] => .ok ([], [])
  | i, key, t :: rest =>
    match mkVdrRowFields t with
    | .error e => .error e
    | .ok flds =>
      if fault (.addVdr i) then .error .dbFault
      else
        match insertAxles fault i key 0 axles_data with
        | .error e => .error e
        | .ok axleRows =>
          match insertVdrs fault axles_data (i + 1) (key + 1) rest with
          | .error e => .error e
          | .ok (vs, as) => .ok (⟨key, flds⟩ :: vs, axleRows ++ as)

/-- `DatabaseManager.insert_data`: measurement loop, then `session.commit()`
(database.py line 61 — a full commit, not a flush, so the measurement rows
become durable HERE), then the VDR/axle loop, then the final commit.  Any
exception triggers `session.rollback()`, which discards only the rows pending
since the last commit, and is re-raised; the returned `Db` is the state
observable afterwards.  (On rollback the autoincrement counter is left
unchanged; no claim depends on it.) -/
def insert_data (db : Db) (fault : InsertStep → Bool)
    (td : List (List Json) × List (List Json) × List (List Json)) :
    Except PyErr Unit × Db :=
  let (measurements_data, vdrs_data, axles_data) := td
  match insertMeasurements fault 0 measurements_data with
  | .error e => (.error e, db)
  | .ok mrows =>
    if fault .firstCommit then (.error .dbFault, db)
    else
      let db1 : Db := { db with measurements := db.measurements ++ mrows }
      match insertVdrs fault axles_data 0 db1.nextVdrKey vdrs_data with
      | .error e => (.error e, db1)
      | .ok (vrows, arows) =>
        if fault .finalCommit then (.error .dbFault, db1)
        else
          (.ok (), { db1 with
                       vdrs := db1.vdrs ++ vrows,
                       axles := db1.axles ++ arows,
                       nextVdrKey := db1.nextVdrKey + vrows.length })

/-! ## Acquisition Loop — `src/main.py`, `WIMDataProcessingApp` -/

/-- Externally visible actions of the loop, in emission order: endpoint
fetches, gateway invocations, `time.sleep` calls, and the console reports the
claims talk about. -/
inductive Event where
  | healthFetch
  | dataFetch
  | gatewayInsert
  | sleep (secs : Nat)
  | reportError
  | reportRetrying
  | reportExhausted
  deriving DecidableEq, Repr

/-- `WIMDataProcessingApp.is_server_running`:
`response and response.get("status") == "OK"`.  A falsy response
short-circuits to unhealthy without calling `.get`; on a truthy non-dict
response `.get` raises `AttributeError`, which escapes (there is no handler
around the health-wait loop). -/
def is_server_running (o : HttpOutcome) : Except PyErr Bool :=
  let response := fetch_data "health" o
  if pyTruthy response = false then .ok false
  else
    match response.getOpt "status" with
    | .error e => .error e
    | .ok s => .ok (s = some (Json.str "OK"))

/-- `WIMDataProcessingApp.fetch_and_process_data`, one polling cycle, with the
success/failure of `db_manager.insert_data` abstracted by `dbOk` (the gateway
raises iff `dbOk = false`).  Returns the emitted events and either the new
`last_current_id` or the escaped exception.  On the skip branch and after a
successful insert the cycle ends with `time.sleep(5)`; an exception skips the
sleep inside this method (the retry sleep happens in `run`). -/
def fetch_and_process_data (dbOk : Bool) (last : Option Json) (o : HttpOutcome) :
    List Event × Except PyErr (Option Json) :=
  let json_data := fetch_data "data" o
  match json_data.getOpt "id" with
  | .error e => ([.dataFetch], .error e)
  | .ok current_id =>
    if current_id = last then ([.dataFetch, .sleep 5], .ok last)
    else
      match transform_data json_data with
      | .error e => ([.dataFetch], .error e)
      | .ok _ =>
        if dbOk then ([.dataFetch, .gatewayInsert, .sleep 5], .ok current_id)
        else ([.dataFetch, .gatewayInsert], .error .dbFault)

/-- The retry loop's mutable state in `run`: the remaining retry budget and
`last_current_id`. -/
structure LoopState where
  retries : Nat
  last : Option Json
  deriving DecidableEq, Repr

/-- One iteration of the `while retries > 0` body (main.py lines 84–94): run
`fetch_and_process_data` for one environment outcome; on an exception print
the error and then — `if retries > 0` — print the retry notice, sleep and
decrement, `else` print the exhaustion report and break.  The boolean is the
`break` flag.  (The `else` branch is kept exactly as in the source even
though the enclosing `while` makes its guard always true.) -/
def loopStep (st : LoopState) (cycle : HttpOutcome × Bool) :
    List Event × LoopState × Bool :=
  match fetch_and_process_data cycle.2 st.last cycle.1 with
  | (evs, .ok newLast) => (evs, ⟨st.retries, newLast⟩, false)
  | (evs, .error _) =>
    if 0 < st.retries then
      (evs ++ [.reportError, .reportRetrying, .sleep 5], ⟨st.retries - 1, st.last⟩, false)
    else
      (evs ++ [.reportError, .reportExhausted], st, true)

/-- The `while retries > 0` loop of `run`, consuming one environment outcome
per iteration; it stops when the budget is exhausted, the body breaks, or the
supplied trace runs out (the loop itself would keep polling). -/
def runLoop (st : LoopState) : List (HttpOutcome × Bool) → List Event × LoopState
  | [] => ([], st)
  | c :: rest =>
    if st.retries = 0 then ([], st)
    else
      match loopStep st c with
      | (evs, st1, true) => (evs, st1)
      | (evs, st1, false) =>
        let (evs2, st2) := runLoop st1 rest
        (evs ++ evs2, st2)

/-- Result of the health-wait phase on a finite trace of health outcomes. -/
inductive WaitOutcome where
  | stillWaiting
  | crashed (e : PyErr)
  | ready (rest : List HttpOutcome)
  deriving DecidableEq, Repr

/-- The `while not self.is_server_running()` loop of `run` (main.py lines
75–77): one health fetch per iteration, then `time.sleep(1)` while unhealthy;
an exception from `is_server_running` escapes uncaught. -/
def runWaiting : List HttpOutcome → List Event × WaitOutcome
  | [] => ([], .stillWaiting)
  | o :: rest =>
    match is_server_running o with
    | .error e => ([.healthFetch], .crashed e)
    | .ok true => ([.healthFetch], .ready rest)
    | .ok false =>
      let (evs, w) := runWaiting rest
      ([.healthFetch, .sleep 1] ++ evs, w)

/-- Overall result of `run` on finite traces. -/
inductive AppResult where
  | waitingForever
  | crashed (e : PyErr)
  | finished (st : LoopState)
  deriving DecidableEq, Repr

/-- `WIMDataProcessingApp.run` on finite traces: the health-wait phase over
`health`, then (only once healthy) the retry loop over `dataTrace`, started
with `max_retries = 10` and `last_current_id = None`. -/
def runApp (health : List HttpOutcome) (dataTrace : List (HttpOutcome × Bool)) :
    List Event × AppResult :=
  match runWaiting health with
  | (evs, .stillWaiting) => (evs, .waitingForever)
  | (evs, .crashed e) => (evs, .crashed e)
  | (evs, .ready _) =>
    let (evs2, st) := runLoop ⟨10, none⟩ dataTrace
    (evs ++ evs2, .finished st)

/-! ## Concrete sample data

A small snapshot in the shape served by `wim_restful_server.get_data`
(one VDR, two axles, plus an extra `LaneName` field the transformer ignores),
and the tuples it flattens to. -/

def sampleAxle (n : Int) : Json :=
  .obj [("ID", .int (12339142 + n)), ("GroupID", .int n), ("Velocity", .int 53),
        ("Weight", .int 4300), ("LeftWheelWeight", .int 2150), ("RightWheelWeight", .int 2150),
        ("LeftRightImbalance", .int 52), ("Distance", .int 0), ("Track", .int 0),
        ("PatchLengthRight", .int 0), ("PatchLengthLeft", .int 0),
        ("PatchWidthRight", .int 0), ("PatchWidthLeft", .int 0),
        ("PositionRight", .int 0), ("PositionLeft", .int 0),
        ("SDTireRight", .str "N"), ("SDTireLeft", .str "N"),
        ("TireStatusRight", .str "N/A"), ("TireStatusLeft", .str "N/A")]

def sampleVdrData : Json :=
  .obj [("MetrologicalID", .str "0x13844B5D"), ("LaneNo", .int 1), ("LaneName", .str "Lane_1"),
        ("ErrorFlag", .int 0), ("WarningFlag", .int 0), ("Direction", .int 0),
        ("MoveStatus", .int (-1)), ("FrontToFront", .int 5), ("BackToFront", .int 4),
        ("FrontOverhang", .int 0), ("Duration", .int 2), ("VehicleLength", .int 25),
        ("GrossWeight", .int 22000), ("LeftWeight", .int 11000), ("RightWeight", .int 11000),
        ("Velocity", .int 53), ("WheelBase", .int 18), ("AxlesCount", .int 2),
        ("MassUnit", .str "kg"), ("VelocityUnit", .str "km/h"), ("DistanceUnit", .str "m"),
        ("Axles", .arr [sampleAxle 0, sampleAxle 1]),
        ("Marked", .bool false), ("MarkedViolations", .bool false), ("VehicleID", .str ""),
        ("StartTime", .int 1638457729), ("StartTimeStr", .str "2021-12-02T16:08:49")]

def sampleVdr : Json :=
  .obj [("source", .str "WIM DL"), ("data", sampleVdrData)]

def sampleSnapshot : Json :=
  .obj [("pkMeasurement", .int 7), ("id", .str "7"),
        ("timestamp", .str "2024-01-01T00:00:00"), ("vdRs", .arr [sampleVdr])]

/-- `sampleSnapshot` with its required `timestamp` value of the wrong type
(an integer instead of the ISO-8601 string required by the interface). -/
def wrongTypeSnapshot : Json :=
  .obj [("pkMeasurement", .int 7), ("id", .str "7"),
        ("timestamp", .int 5), ("vdRs", .arr [sampleVdr])]

def sampleMeasurementTuple : List Json :=
  [.int 7, .str "7", .str "2024-01-01T00:00:00"]

def sampleVdrTuple : List Json := directVdrTuple sampleSnapshot sampleVdr

def sampleAxleTuple (n : Int) : List Json := directAxleTuple (sampleAxle n)

/-! ## Helper lemmas: dictionary access and the transformer -/

theorem getItem_of_hasKey {j : Json} {k : String} (h : j.hasKey k = true) :
    j.getItem k = .ok (j.getD k) := by
  cases j <;> try exact Bool.noConfusion h
  case obj fs =>
    cases hl : lookupField fs k with
    | none =>
      simp only [Json.hasKey, hl, Option.isSome_none] at h
      exact Bool.noConfusion h
    | some v => simp [Json.getItem, Json.getD, hl]

theorem hasKey_of_getItem_ok {j : Json} {k : String} {v : Json}
    (h : j.getItem k = .ok v) : j.hasKey k = true := by
  cases j <;> try exact Except.noConfusion h
  case obj fs =>
    simp only [Json.getItem] at h
    cases hl : lookupField fs k with
    | none => rw [hl] at h; exact Except.noConfusion h
    | some w => simp [Json.hasKey, hl]

theorem getD_of_getItem_ok {j : Json} {k : String} {v : Json}
    (h : j.getItem k = .ok v) : j.getD k = v := by
  cases j <;> try exact Except.noConfusion h
  case obj fs =>
    simp only [Json.getItem] at h
    cases hl : lookupField fs k with
    | none => rw [hl] at h; exact Except.noConfusion h
    | some w =>
      rw [hl] at h
      dsimp only at h
      cases h
      simp [Json.getD, hl]

theorem getFields_of_hasKeys {j : Json} {ks : List String}
    (h : ∀ k ∈ ks, j.hasKey k = true) :
    getFields j ks = .ok (ks.map j.getD) :=
  exceptMapM_ok_of_forall (fun k hk => getItem_of_hasKey (h k hk))

theorem forall_hasKey_of_getFields_ok {j : Json} {ks : List String} {out : List Json}
    (h : getFields j ks = .ok out) : ∀ k ∈ ks, j.hasKey k = true := by
  intro k hk
  obtain ⟨v, hv⟩ := forall_ok_of_exceptMapM h k hk
  exact hasKey_of_getItem_ok hv

theorem pyIterD_of_pyIter_ok {x : Json} {xs : List Json}
    (h : pyIter x = .ok xs) : pyIterD x = xs := by
  simp [pyIterD, h]

theorem transformAxle_of_valid {a : Json} (h : validAxle a = true) :
    transformAxle a = .ok (directAxleTuple a) := by
  have hall : ∀ k ∈ axleFields, a.hasKey k = true := by
    simpa [validAxle, List.all_eq_true] using h
  simp [transformAxle, getFields_of_hasKeys hall, directAxleTuple]

theorem axleKeys_of_transformAxle_ok {a : Json} {out : List Json}
    (h : transformAxle a = .ok out) : axleFields.all a.hasKey = true := by
  rw [transformAxle] at h
  cases hf : getFields a axleFields with
  | error e => rw [hf] at h; exact Except.noConfusion h
  | ok fs =>
    rw [List.all_eq_true]
    exact forall_hasKey_of_getFields_ok hf

theorem transformVdr_of_valid {j vdr : Json}
    (hpk : j.hasKey "pkMeasurement" = true) (h : validVdr vdr = true) :
    transformVdr j vdr = .ok (directVdrTuple j vdr, (axlesOf vdr).map directAxleTuple) := by
  rw [validVdr, Bool.and_eq_true, Bool.and_eq_true, Bool.and_eq_true, Bool.and_eq_true] at h
  obtain ⟨⟨hsrc, hdata⟩, ⟨⟨hflds, haxk⟩, hmatch⟩⟩ := h
  cases hax : (vdr.getD "data").getD "Axles" with
  | arr axles =>
    rw [hax] at hmatch
    have hvalidax : ∀ a ∈ axles, validAxle a = true := by
      simpa [List.all_eq_true] using hmatch
    have h1 : vdr.getItem "data" = .ok (vdr.getD "data") := getItem_of_hasKey hdata
    have h2 : vdr.getItem "source" = .ok (vdr.getD "source") := getItem_of_hasKey hsrc
    have h3 : j.getItem "pkMeasurement" = .ok (j.getD "pkMeasurement") := getItem_of_hasKey hpk
    have h4 : getFields (vdr.getD "data") vdrDataFields =
        .ok (vdrDataFields.map (vdr.getD "data").getD) :=
      getFields_of_hasKeys (by simpa [List.all_eq_true] using hflds)
    have h5 : (vdr.getD "data").getItem "Axles" = .ok (Json.arr axles) := by
      rw [getItem_of_hasKey haxk, hax]
    have h6 : exceptMapM transformAxle axles = .ok (axles.map directAxleTuple) :=
      exceptMapM_ok_of_forall (fun a ha => transformAxle_of_valid (hvalidax a ha))
    have h7 : axlesOf vdr = axles := by simp [axlesOf, hax]
    simp [transformVdr, h1, h2, h3, h4, h5, h6, h7, pyIter, directVdrTuple]
  | null => rw [hax] at hmatch; exact Bool.noConfusion hmatch
  | bool b => rw [hax] at hmatch; exact Bool.noConfusion hmatch
  | int n => rw [hax] at hmatch; exact Bool.noConfusion hmatch
  | num q => rw [hax] at hmatch; exact Bool.noConfusion hmatch
  | str s => rw [hax] at hmatch; exact Bool.noConfusion hmatch
  | obj fs => rw [hax] at hmatch; exact Bool.noConfusion hmatch

theorem vdrPresent_of_transformVdr_ok {j vdr : Json} {out : List Json × List (List Json)}
    (h : transformVdr j vdr = .ok out) :
    (vdr.hasKey "source" && vdr.hasKey "data" &&
      (vdrDataFields.all (vdr.getD "data").hasKey && (vdr.getD "data").hasKey "Axles" &&
        (pyIterD ((vdr.getD "data").getD "Axles")).all fun a =>
          axleFields.all a.hasKey)) = true := by
  rw [transformVdr] at h
  cases h1 : vdr.getItem "data" with
  | error e => rw [h1] at h; exact Except.noConfusion h
  | ok vdrData =>
    rw [h1] at h
    dsimp only at h
    cases h2 : vdr.getItem "source" with
    | error e => rw [h2] at h; exact Except.noConfusion h
    | ok src =>
      rw [h2] at h
      dsimp only at h
      cases h3 : j.getItem "pkMeasurement" with
      | error e => rw [h3] at h; exact Except.noConfusion h
      | ok pk =>
        rw [h3] at h
        dsimp only at h
        cases h4 : getFields vdrData vdrDataFields with
        | error e => rw [h4] at h; exact Except.noConfusion h
        | ok flds =>
          rw [h4] at h
          dsimp only at h
          cases h5 : vdrData.getItem "Axles" with
          | error e => rw [h5] at h; exact Except.noConfusion h
          | ok axlesJson =>
            rw [h5] at h
            dsimp only at h
            cases h6 : pyIter axlesJson with
            | error e => rw [h6] at h; exact Except.noConfusion h
            | ok axleList =>
              rw [h6] at h
              dsimp only at h
              cases h7 : exceptMapM transformAxle axleList with
              | error e => rw [h7] at h; exact Except.noConfusion h
              | ok axleEntries =>
                have hd : vdr.getD "data" = vdrData := getD_of_getItem_ok h1
                have hax : vdrData.getD "Axles" = axlesJson := getD_of_getItem_ok h5
                have hiter : pyIterD axlesJson = axleList := pyIterD_of_pyIter_ok h6
                have haxall : ∀ a ∈ axleList, (axleFields.all a.hasKey) = true := by
                  intro a ha
                  obtain ⟨y, hy⟩ := forall_ok_of_exceptMapM h7 a ha
                  exact axleKeys_of_transformAxle_ok hy
                rw [hd, hax, hiter]
                simp only [Bool.and_eq_true]
                exact ⟨⟨hasKey_of_getItem_ok h2, hasKey_of_getItem_ok h1⟩,
                  ⟨List.all_eq_true.mpr (forall_hasKey_of_getFields_ok h4),
                    hasKey_of_getItem_ok h5⟩,
                  List.all_eq_true.mpr haxall⟩

theorem requiredKeysPresent_of_transform_ok {j : Json}
    {out : List (List Json) × List (List Json) × List (List Json)}
    (h : transform_data j = .ok out) : requiredKeysPresent j = true := by
  rw [transform_data] at h
  cases hm : getFields j measurementKeys with
  | error e => rw [hm] at h; exact Except.noConfusion h
  | ok m =>
    rw [hm] at h
    dsimp only at h
    cases hv : j.getItem "vdRs" with
    | error e => rw [hv] at h; exact Except.noConfusion h
    | ok vdRsJson =>
      rw [hv] at h
      dsimp only at h
      cases hit : pyIter vdRsJson with
      | error e => rw [hit] at h; exact Except.noConfusion h
      | ok vdrList =>
        rw [hit] at h
        dsimp only at h
        cases hmm : exceptMapM (transformVdr j) vdrList with
        | error e => rw [hmm] at h; exact Except.noConfusion h
        | ok pairs =>
          have hgd : j.getD "vdRs" = vdRsJson := getD_of_getItem_ok hv
          have hvdrs : ∀ vdr ∈ vdrList, ∃ y, transformVdr j vdr = .ok y :=
            forall_ok_of_exceptMapM hmm
          rw [requiredKeysPresent, hgd, pyIterD_of_pyIter_ok hit]
          simp only [Bool.and_eq_true, List.all_eq_true]
          refine ⟨⟨?_, hasKey_of_getItem_ok hv⟩, ?_⟩
          · rw [← List.all_eq_true]
            exact List.all_eq_true.mpr (forall_hasKey_of_getFields_ok hm)
          · intro vdr hvdr
            obtain ⟨y, hy⟩ := hvdrs vdr hvdr
            have hb := vdrPresent_of_transformVdr_ok hy
            simpa only [Bool.and_eq_true, List.all_eq_true] using hb

theorem transform_data_of_valid {j : Json} (h : validSnapshot j = true) :
    transform_data j = .ok (specTransform j) := by
  rw [validSnapshot, Bool.and_eq_true, Bool.and_eq_true] at h
  obtain ⟨⟨hmk, hvk⟩, hmatch⟩ := h
  cases hvd : j.getD "vdRs" with
  | arr vdrs =>
    rw [hvd] at hmatch
    have hvalid : ∀ v ∈ vdrs, validVdr v = true := by
      simpa [List.all_eq_true] using hmatch
    have hmkeys : ∀ k ∈ measurementKeys, j.hasKey k = true := by
      simpa [List.all_eq_true] using hmk
    have hpk : j.hasKey "pkMeasurement" = true :=
      hmkeys "pkMeasurement" (by simp [measurementKeys])
    have h1 : getFields j measurementKeys = .ok (measurementKeys.map j.getD) :=
      getFields_of_hasKeys hmkeys
    have h2 : j.getItem "vdRs" = .ok (Json.arr vdrs) := by
      rw [getItem_of_hasKey hvk, hvd]
    have h3 : exceptMapM (transformVdr j) vdrs =
        .ok (vdrs.map fun v => (directVdrTuple j v, (axlesOf v).map directAxleTuple)) :=
      exceptMapM_ok_of_forall (fun v hv => transformVdr_of_valid hpk (hvalid v hv))
    have h4 : vdrsOf j = vdrs := by simp [vdrsOf, hvd]
    simp [transform_data, h1, h2, h3, pyIter, specTransform, h4, List.map_map,
      Function.comp_def]
  | null => rw [hvd] at hmatch; exact Bool.noConfusion hmatch
  | bool b => rw [hvd] at hmatch; exact Bool.noConfusion hmatch
  | int n => rw [hvd] at hmatch; exact Bool.noConfusion hmatch
  | num q => rw [hvd] at hmatch; exact Bool.noConfusion hmatch
  | str s => rw [hvd] at hmatch; exact Bool.noConfusion hmatch
  | obj fs => rw [hvd] at hmatch; exact Bool.noConfusion hmatch

/-! ## Helper lemmas: the Persistence Gateway on fault-free runs -/

/-- The VDR rows a fault-free run generates: consecutive keys from `key`,
fields from tuple positions 0–26. -/
def expectedVdrRows (key : Nat) : List (List Json) → List VdrRow
  | [] => []
  | t :: rest => ⟨key, t.take 27⟩ :: expectedVdrRows (key + 1) rest

/-- The axle rows inserted for ONE VDR with generated key `key`: one row per
element of the whole accumulated axle-tuple list. -/
def axleBlock (key : Nat) (as : List (List Json)) : List AxleRow :=
  as.map fun t => ⟨key, (t.drop 1).take 19⟩

/-- The axle rows a fault-free run generates for `n` VDRs with consecutive
keys from `key`: the full block repeated once per VDR. -/
def expectedAxleRows (key : Nat) : Nat → List (List Json) → List AxleRow
  | 0, _ => []
  | n + 1, as => axleBlock key as ++ expectedAxleRows (key + 1) n as

theorem expectedVdrRows_length : ∀ (key : Nat) (vs : List (List Json)),
    (expectedVdrRows key vs).length = vs.length
  | _, [] => rfl
  | key, _ :: rest => by
    simp [expectedVdrRows, expectedVdrRows_length (key + 1) rest]

theorem expectedAxleRows_length : ∀ (key n : Nat) (as : List (List Json)),
    (expectedAxleRows key n as).length = n * as.length
  | _, 0, _ => by simp [expectedAxleRows]
  | key, n + 1, as => by
    simp only [expectedAxleRows, List.length_append, axleBlock, List.length_map,
      expectedAxleRows_length (key + 1) n as]
    rw [Nat.succ_mul, Nat.add_comm]

theorem insertMeasurements_noFault : ∀ (ms : List (List Json)) (i : Nat),
    (∀ t ∈ ms, 2 < t.length) →
    insertMeasurements noFault i ms = .ok (ms.map fun t => (⟨t.take 3⟩ : MeasurementRow))
  | [], _, _ => rfl
  | t :: rest, i, h => by
    have ht : 2 < t.length := h t (by simp)
    have hr := insertMeasurements_noFault rest (i + 1) (fun u hu => h u (by simp [hu]))
    simp [insertMeasurements, mkMeasurementRow, ht, noFault, hr]

theorem insertAxles_noFault : ∀ (as : List (List Json)) (vi key jdx : Nat),
    (∀ t ∈ as, 19 < t.length) →
    insertAxles noFault vi key jdx as = .ok (axleBlock key as)
  | [], _, _, _, _ => rfl
  | t :: rest, vi, key, jdx, h => by
    have ht : 19 < t.length := h t (by simp)
    have hr := insertAxles_noFault rest vi key (jdx + 1) (fun u hu => h u (by simp [hu]))
    simp [insertAxles, mkAxleRow, ht, noFault, hr, axleBlock]

theorem insertVdrs_noFault : ∀ (vs as : List (List Json)) (i key : Nat),
    (∀ t ∈ vs, 26 < t.length) → (∀ t ∈ as, 19 < t.length) →
    insertVdrs noFault as i key vs =
      .ok (expectedVdrRows key vs, expectedAxleRows key vs.length as)
  | [], _, _, _, _, _ => rfl
  | t :: rest, as, i, key, hv, ha => by
    have ht : 26 < t.length := hv t (by simp)
    have hax := insertAxles_noFault as i key 0 ha
    have hr := insertVdrs_noFault rest as (i + 1) (key + 1)
      (fun u hu => hv u (by simp [hu])) ha
    simp [insertVdrs, mkVdrRowFields, ht, noFault, hax, hr, expectedVdrRows,
      expectedAxleRows]

/-! ## Claims -/

/-- Fault oracle injecting a data/integrity fault at the very first VDR
insert — i.e. after the Measurement row has been inserted (and committed by
database.py line 61) but before any ReadingGroup row exists. -/
def faultAtFirstVdr : InsertStep → Bool
  | .addVdr 0 => true
  | _ => false

/-- C1: the claim states that when any step of `insert_data` raises a
data/integrity fault — in particular one occurring after the Measurement
insert but before the ReadingGroup inserts — the entire transaction is rolled
back and no Measurement row is observable afterwards.  The code contradicts
this: the measurement phase ends in `session.commit()` (database.py line 61),
not a flush, so on a fault injected at the first VDR insert the fault IS
surfaced and the second transaction IS rolled back (no VDR or axle rows), but
the already-committed Measurement row remains observable — contradicting both
the claim and the method's own docstring ("ensure no partial data is
committed").  This theorem evaluates the gateway at that failing input. -/
theorem measurement_persists_after_vdr_fault :
    insert_data Db.empty faultAtFirstVdr
        ([sampleMeasurementTuple], [sampleVdrTuple], [sampleAxleTuple 0]) =
      (.error .dbFault,
       { measurements := [⟨sampleMeasurementTuple⟩], vdrs := [], axles := [],
         nextVdrKey := 1 }) ∧
    (insert_data Db.empty faultAtFirstVdr
        ([sampleMeasurementTuple], [sampleVdrTuple], [sampleAxleTuple 0])).2.measurements ≠ [] := by
  constructor
  · decide
  · decide

/-- A data-endpoint body on which every processing cycle fails: its identity
differs from `None`, so the cycle transforms it, and `transform_data` raises
`KeyError` on the missing `pkMeasurement`. -/
def failingBody : Json := .obj [("id", .int 1)]

/-- Twelve environment cycles in which processing always fails (two more than
the retry budget, to show the loop stops polling after the tenth). -/
def alwaysFailTrace : List (HttpOutcome × Bool) :=
  List.replicate 12 (HttpOutcome.success failingBody, true)

/-- C2: with processing failing every cycle, the retry loop of `run` does exit
after exactly `max_retries = 10` consecutive failures (10 data fetches, no
polling on the remaining trace) — but it emits ZERO exhaustion reports, not
one: the `Maximum retries reached. Exiting.` branch (main.py line 93) is dead
code, because its guard `if retries > 0` is always true inside
`while retries > 0`.  The loop terminates silently after printing the 10th
retry notice, contradicting the claim (and the intent evidenced by the dead
branch). -/
theorem retry_exhaustion_report_never_emitted :
    (runLoop ⟨10, none⟩ alwaysFailTrace).2 = ⟨0, none⟩ ∧
    (runLoop ⟨10, none⟩ alwaysFailTrace).1.count Event.reportExhausted = 0 ∧
    (runLoop ⟨10, none⟩ alwaysFailTrace).1.count Event.reportError = 10 ∧
    (runLoop ⟨10, none⟩ alwaysFailTrace).1.count Event.reportRetrying = 10 ∧
    (runLoop ⟨10, none⟩ alwaysFailTrace).1.count Event.dataFetch = 10 := by
  refine ⟨by decide, by decide, by decide, by decide, by decide⟩

/-- C3: on a fault-free insert, every VDR tuple produces one `vdrs` row, and
for EACH of the `vs.length` VDR rows the gateway re-inserts one `axles` row
per element of the WHOLE accumulated axle-tuple list (see `expectedAxleRows`),
so `vs.length * as.length` axle rows are inserted in all — the legacy
behavior flagged by the spec, stated here for any number of reading groups
(the claim's `N > 1` case included). -/
theorem insert_reinserts_all_axles_per_vdr (db : Db) (ms vs as : List (List Json))
    (hm : ∀ t ∈ ms, 2 < t.length) (hv : ∀ t ∈ vs, 26 < t.length)
    (ha : ∀ t ∈ as, 19 < t.length) :
    ∃ db2, insert_data db noFault (ms, vs, as) = (.ok (), db2) ∧
      db2.axles = db.axles ++ expectedAxleRows db.nextVdrKey vs.length as ∧
      db2.axles.length = db.axles.length + vs.length * as.length ∧
      db2.vdrs.length = db.vdrs.length + vs.length := by
  have h1 := insertMeasurements_noFault ms 0 hm
  have h2 := insertVdrs_noFault vs as 0 db.nextVdrKey hv ha
  refine ⟨{ db with
      measurements := db.measurements ++ ms.map fun t => ⟨t.take 3⟩,
      vdrs := db.vdrs ++ expectedVdrRows db.nextVdrKey vs,
      axles := db.axles ++ expectedAxleRows db.nextVdrKey vs.length as,
      nextVdrKey := db.nextVdrKey + (expectedVdrRows db.nextVdrKey vs).length },
    ?_, rfl, ?_, ?_⟩
  · simp [insert_data, h1, noFault, h2]
  · simp [List.length_append, expectedAxleRows_length]
  · simp [List.length_append, expectedVdrRows_length]

theorem insert_reinserts_all_axles_per_vdr_witness :
    (∀ t ∈ [sampleMeasurementTuple], 2 < t.length) ∧
    (∀ t ∈ [sampleVdrTuple, sampleVdrTuple], 26 < t.length) ∧
    (∀ t ∈ [sampleAxleTuple 0, sampleAxleTuple 1, sampleAxleTuple 2], 19 < t.length) ∧
    (∃ db2, insert_data Db.empty noFault
        ([sampleMeasurementTuple], [sampleVdrTuple, sampleVdrTuple],
         [sampleAxleTuple 0, sampleAxleTuple 1, sampleAxleTuple 2]) = (.ok (), db2) ∧
      db2.axles = Db.empty.axles ++ expectedAxleRows Db.empty.nextVdrKey
        [sampleVdrTuple, sampleVdrTuple].length
        [sampleAxleTuple 0, sampleAxleTuple 1, sampleAxleTuple 2] ∧
      db2.axles.length = Db.empty.axles.length +
        [sampleVdrTuple, sampleVdrTuple].length *
          [sampleAxleTuple 0, sampleAxleTuple 1, sampleAxleTuple 2].length ∧
      db2.vdrs.length = Db.empty.vdrs.length + [sampleVdrTuple, sampleVdrTuple].length) :=
  ⟨by decide, by decide, by decide,
    insert_reinserts_all_axles_per_vdr Db.empty _ _ _
      (by decide) (by decide) (by decide)⟩

/-- C4: on every structurally valid snapshot, `transform_data` succeeds and
returns exactly the direct-read output `specTransform`: one measurement
tuple, `len(vdRs)` VDR tuples, and `sum(len(Axles_i))` axle tuples, with
every field value a verbatim copy of the corresponding raw input value (the
`specTransform` tuples are built from `Json.getD` reads of the input, so no
numeric or string coercion is applied). -/
theorem transform_counts_and_copies_of_valid (j : Json) (h : validSnapshot j = true) :
    transform_data j = .ok (specTransform j) ∧
    (specTransform j).1.length = 1 ∧
    (specTransform j).2.1.length = (vdrsOf j).length ∧
    (specTransform j).2.2.length = ((vdrsOf j).map fun v => (axlesOf v).length).sum := by
  refine ⟨transform_data_of_valid h, rfl, by simp [specTransform], ?_⟩
  simp [specTransform, List.length_flatten, List.map_map, Function.comp_def]

theorem transform_counts_and_copies_of_valid_witness :
    validSnapshot sampleSnapshot = true ∧
    (transform_data sampleSnapshot = .ok (specTransform sampleSnapshot) ∧
     (specTransform sampleSnapshot).1.length = 1 ∧
     (specTransform sampleSnapshot).2.1.length = (vdrsOf sampleSnapshot).length ∧
     (specTransform sampleSnapshot).2.2.length =
       ((vdrsOf sampleSnapshot).map fun v => (axlesOf v).length).sum) :=
  ⟨by decide, transform_counts_and_copies_of_valid sampleSnapshot (by decide)⟩

/-- C5 counterexample: the claim also demands failure when a required value is
of the WRONG TYPE.  `wrongTypeSnapshot` carries `timestamp = 5` (an integer
where the interface requires an ISO-8601 string), yet `transform_data`
succeeds and copies the integer into the measurement tuple — wrong-typed
scalar values are not rejected, so the claim as stated is false. -/
theorem transform_accepts_wrong_typed_scalar :
    wrongTypeSnapshot.getD "timestamp" = Json.int 5 ∧
    transform_data wrongTypeSnapshot = .ok (specTransform wrongTypeSnapshot) ∧
    (specTransform wrongTypeSnapshot).1 = [[Json.int 7, Json.str "7", Json.int 5]] :=
  ⟨by decide, by decide, by decide⟩

/-- C5 (amended): whenever a required key is absent anywhere the transformer
dereferences (see `requiredKeysPresent`), `transform_data` raises — missing
fields are never defaulted — and, the result being an `Except.error`, the
caller observes no measurement, VDR, or axle tuples at all.  (Wrong-typed
scalar values, by contrast, are copied unchanged; see the counterexample.) -/
theorem transform_fails_on_missing_required_key (j : Json)
    (h : requiredKeysPresent j = false) : ∃ e, transform_data j = .error e := by
  cases ht : transform_data j with
  | ok out =>
    have hp := requiredKeysPresent_of_transform_ok ht
    rw [h] at hp
    exact Bool.noConfusion hp
  | error e => exact ⟨e, rfl⟩

theorem transform_fails_on_missing_required_key_witness :
    requiredKeysPresent (Json.obj []) = false ∧
    ∃ e, transform_data (Json.obj []) = .error e :=
  ⟨by decide, transform_fails_on_missing_required_key (Json.obj []) (by decide)⟩

/-- C6: for every endpoint and every outcome of the underlying HTTP request,
`fetch_data` returns a value (it is a total function of the outcome): the
parsed body on success, and otherwise a tagged failure dictionary — carrying
the non-success status code or the transport error message — whose `status`
field is `"error"`.  No fault escapes to the caller. -/
theorem fetch_data_total_tagged (endpoint : String) (o : HttpOutcome) :
    (∃ b, o = .success b ∧ fetch_data endpoint o = b) ∨
    (∃ c, o = .httpError c ∧
      fetch_data endpoint o = .obj [("status", .str "error"), ("code", .int c)] ∧
      (fetch_data endpoint o).getD "status" = .str "error") ∨
    (∃ m, o = .transportError m ∧
      fetch_data endpoint o = .obj [("status", .str "error"), ("message", .str m)] ∧
      (fetch_data endpoint o).getD "status" = .str "error") := by
  cases o with
  | success b => exact Or.inl ⟨b, rfl, rfl⟩
  | httpError c =>
    exact Or.inr (Or.inl ⟨c, rfl, rfl, by simp [fetch_data, Json.getD, lookupField]⟩)
  | transportError m =>
    exact Or.inr (Or.inr ⟨m, rfl, rfl, by simp [fetch_data, Json.getD, lookupField]⟩)

theorem newLast_is_fetched_id {dbOk : Bool} {last : Option Json} {o : HttpOutcome}
    {evs : List Event} {newLast : Option Json}
    (h : fetch_and_process_data dbOk last o = (evs, .ok newLast)) :
    (fetch_data "data" o).getOpt "id" = .ok newLast := by
  rw [fetch_and_process_data] at h
  cases hg : (fetch_data "data" o).getOpt "id" with
  | error e => rw [hg] at h; simp at h
  | ok cur =>
    rw [hg] at h
    dsimp only at h
    by_cases hc : cur = last
    · rw [if_pos hc] at h
      simp only [Prod.mk.injEq, Except.ok.injEq] at h
      rw [hc, h.2]
    · rw [if_neg hc] at h
      cases ht : transform_data (fetch_data "data" o) with
      | error e => rw [ht] at h; simp at h
      | ok td =>
        rw [ht] at h
        dsimp only at h
        cases dbOk with
        | false => simp at h
        | true =>
          simp only [if_true, Prod.mk.injEq, Except.ok.injEq] at h
          rw [h.2]

/-- C7: identity-based de-duplication.  First: whenever the fetched
snapshot's identity (`json_data.get("id")`) equals `last_current_id` by value
equality, the cycle performs no transform and no gateway insert — its event
trace is exactly one data fetch followed by the fixed 5-second inter-poll
sleep — and leaves the identity unchanged.  Second: after ANY successful
cycle, polling the same snapshot again is such a cycle, so the Gateway is
never invoked a second time for the same snapshot. -/
theorem skip_on_unchanged_identity :
    (∀ (dbOk : Bool) (last : Option Json) (o : HttpOutcome),
        (fetch_data "data" o).getOpt "id" = .ok last →
        fetch_and_process_data dbOk last o = ([.dataFetch, .sleep 5], .ok last) ∧
        Event.gatewayInsert ∉ (fetch_and_process_data dbOk last o).1) ∧
    (∀ (dbOk1 dbOk2 : Bool) (last newLast : Option Json) (o : HttpOutcome)
        (evs : List Event),
        fetch_and_process_data dbOk1 last o = (evs, .ok newLast) →
        fetch_and_process_data dbOk2 newLast o = ([.dataFetch, .sleep 5], .ok newLast) ∧
        Event.gatewayInsert ∉ (fetch_and_process_data dbOk2 newLast o).1) := by
  have hskip : ∀ (dbOk : Bool) (last : Option Json) (o : HttpOutcome),
      (fetch_data "data" o).getOpt "id" = .ok last →
      fetch_and_process_data dbOk last o = ([.dataFetch, .sleep 5], .ok last) := by
    intro dbOk last o h
    simp [fetch_and_process_data, h]
  constructor
  · intro dbOk last o h
    refine ⟨hskip dbOk last o h, ?_⟩
    rw [hskip dbOk last o h]
    simp
  · intro dbOk1 dbOk2 last newLast o evs h
    have hg := newLast_is_fetched_id h
    refine ⟨hskip dbOk2 newLast o hg, ?_⟩
    rw [hskip dbOk2 newLast o hg]
    simp

/-- A data snapshot whose identity `"7"` matches an already-processed one. -/
def dupSnapshotOutcome : HttpOutcome := .success (.obj [("id", .str "7")])

theorem skip_on_unchanged_identity_witness :
    ((fetch_data "data" dupSnapshotOutcome).getOpt "id" = .ok (some (Json.str "7"))) ∧
    (fetch_and_process_data true (some (Json.str "7")) dupSnapshotOutcome =
       ([.dataFetch, .sleep 5], .ok (some (Json.str "7"))) ∧
     Event.gatewayInsert ∉
       (fetch_and_process_data true (some (Json.str "7")) dupSnapshotOutcome).1) :=
  ⟨by decide,
   skip_on_unchanged_identity.1 true (some (Json.str "7")) dupSnapshotOutcome (by decide)⟩

theorem runWaiting_all_unhealthy : ∀ (hs : List HttpOutcome),
    (∀ o ∈ hs, is_server_running o = .ok false) →
    runWaiting hs =
      ((List.replicate hs.length [Event.healthFetch, Event.sleep 1]).flatten, .stillWaiting)
  | [], _ => rfl
  | o :: rest, h => by
    have ho := h o (by simp)
    have hr := runWaiting_all_unhealthy rest (fun u hu => h u (by simp [hu]))
    simp [runWaiting, ho, hr, List.replicate_succ]

theorem dataFetch_not_in_runWaiting : ∀ (hs : List HttpOutcome),
    Event.dataFetch ∉ (runWaiting hs).1
  | [] => by simp [runWaiting]
  | o :: rest => by
    have hr := dataFetch_not_in_runWaiting rest
    cases hi : is_server_running o with
    | error e => simp [runWaiting, hi]
    | ok b =>
      cases b with
      | true => simp [runWaiting, hi]
      | false => simp [runWaiting, hi, hr]

theorem ready_implies_healthy : ∀ (hs : List HttpOutcome) (evs : List Event)
    (rest : List HttpOutcome),
    runWaiting hs = (evs, .ready rest) → ∃ o ∈ hs, is_server_running o = .ok true
  | [], evs, rest, h => by simp [runWaiting] at h
  | o :: hs2, evs, rest, h => by
    rw [runWaiting] at h
    cases hi : is_server_running o with
    | error e => rw [hi] at h; simp at h
    | ok b =>
      cases b with
      | true => exact ⟨o, by simp, hi⟩
      | false =>
        rw [hi] at h
        dsimp only at h
        cases hw : runWaiting hs2 with
        | mk evs2 w =>
          rw [hw] at h
          dsimp only at h
          simp only [Prod.mk.injEq] at h
          obtain ⟨u, hu, hok⟩ := ready_implies_healthy hs2 evs2 rest (by rw [hw, h.2])
          exact ⟨u, by simp [hu], hok⟩

/-- C8 (amended): while every health response fails the code's health check
(`response and response.get("status") == "OK"`), `run` stays in the
health-wait loop — one health fetch then a 1-second sleep per response, with
no upper bound — and issues zero data fetches; conversely, a data fetch can
only occur after some health response passed the check.  (The code's check
inspects only the `status` field; see the counterexample for why the claim's
"payload `{"status": "OK"}`" reading is too strict.) -/
theorem waiting_gates_data_fetches :
    (∀ (hs : List HttpOutcome) (ds : List (HttpOutcome × Bool)),
        (∀ o ∈ hs, is_server_running o = .ok false) →
        runApp hs ds =
          ((List.replicate hs.length [Event.healthFetch, Event.sleep 1]).flatten,
           .waitingForever) ∧
        Event.dataFetch ∉ (runApp hs ds).1) ∧
    (∀ (hs : List HttpOutcome) (ds : List (HttpOutcome × Bool)),
        Event.dataFetch ∈ (runApp hs ds).1 →
        ∃ o ∈ hs, is_server_running o = .ok true) := by
  constructor
  · intro hs ds h
    have hw := runWaiting_all_unhealthy hs h
    have happ : runApp hs ds =
        ((List.replicate hs.length [Event.healthFetch, Event.sleep 1]).flatten,
         .waitingForever) := by
      simp [runApp, hw]
    refine ⟨happ, ?_⟩
    rw [happ]
    simp [List.mem_flatten, List.mem_replicate]
  · intro hs ds h
    cases hw : runWaiting hs with
    | mk evs w =>
      cases w with
      | stillWaiting =>
        rw [runApp, hw] at h
        exact absurd (hw ▸ h : Event.dataFetch ∈ (runWaiting hs).1)
          (dataFetch_not_in_runWaiting hs)
      | crashed e =>
        rw [runApp, hw] at h
        exact absurd (hw ▸ h : Event.dataFetch ∈ (runWaiting hs).1)
          (dataFetch_not_in_runWaiting hs)
      | ready rest => exact ready_implies_healthy hs evs rest hw

theorem waiting_gates_data_fetches_witness :
    (∀ o ∈ [HttpOutcome.httpError 500], is_server_running o = .ok false) ∧
    (runApp [HttpOutcome.httpError 500] [] =
       ((List.replicate ([HttpOutcome.httpError 500] : List HttpOutcome).length
           [Event.healthFetch, Event.sleep 1]).flatten, .waitingForever) ∧
     Event.dataFetch ∉ (runApp [HttpOutcome.httpError 500] []).1) :=
  ⟨by decide, waiting_gates_data_fetches.1 [HttpOutcome.httpError 500] [] (by decide)⟩

/-- A health response with a success HTTP status whose payload carries
`status = "OK"` plus an extra field — so the payload is NOT the literal
`{"status": "OK"}`. -/
def okExtraPayload : Json := .obj [("status", .str "OK"), ("detail", .int 1)]

/-- C8 counterexample: the claim keeps the loop in `WaitingForSource` while
the health endpoint returns "anything other than a success HTTP status with
payload `{"status": "OK"}`".  A 200 response whose payload has `status = "OK"`
plus an extra field is such an "other" response, yet `is_server_running`
accepts it (it checks only the `status` field), the waiting loop exits on it,
and a data fetch follows — refuting the claim as stated. -/
theorem waiting_exits_on_nonliteral_ok_payload :
    okExtraPayload ≠ Json.obj [("status", Json.str "OK")] ∧
    is_server_running (.success okExtraPayload) = .ok true ∧
    runWaiting [.success okExtraPayload] = ([.healthFetch], .ready []) ∧
    Event.dataFetch ∈ (runApp [.success okExtraPayload] [(.transportError "down", true)]).1 :=
  ⟨by decide, by decide, by decide, by decide⟩

/-- C9: when a processing cycle raises (fetch identity read, transform, or
insert), the retry-loop body leaves `last_current_id` unchanged — the
assignment `self.last_current_id = current_id` runs only after a successful
insert — so the next poll of the same snapshot behaves exactly as this one
did (it is re-attempted, not skipped as a duplicate). -/
theorem last_id_unchanged_on_processing_fault (st : LoopState)
    (c : HttpOutcome × Bool) (e : PyErr)
    (h : (fetch_and_process_data c.2 st.last c.1).2 = .error e) :
    (loopStep st c).2.1.last = st.last ∧
    fetch_and_process_data c.2 (loopStep st c).2.1.last c.1 =
      fetch_and_process_data c.2 st.last c.1 := by
  have hstep : (loopStep st c).2.1.last = st.last := by
    cases hf : fetch_and_process_data c.2 st.last c.1 with
    | mk evs r =>
      cases r with
      | ok v => rw [hf] at h; simp at h
      | error e2 =>
        simp only [loopStep, hf]
        split <;> rfl
  exact ⟨hstep, by rw [hstep]⟩

/-- A data fetch that fails at the transport level. -/
def failFetchOutcome : HttpOutcome := .transportError "connection refused"

theorem last_id_unchanged_on_processing_fault_witness :
    ((fetch_and_process_data true (some (Json.int 1)) failFetchOutcome).2 =
       .error (.keyError "pkMeasurement")) ∧
    ((loopStep ⟨10, some (Json.int 1)⟩ (failFetchOutcome, true)).2.1.last =
       some (Json.int 1) ∧
     fetch_and_process_data true
         (loopStep ⟨10, some (Json.int 1)⟩ (failFetchOutcome, true)).2.1.last
         failFetchOutcome =
       fetch_and_process_data true (some (Json.int 1)) failFetchOutcome) :=
  ⟨by decide,
   last_id_unchanged_on_processing_fault ⟨10, some (Json.int 1)⟩ (failFetchOutcome, true)
     (.keyError "pkMeasurement") (by decide)⟩

/-- C10: a failed data fetch (transport error or non-success status) returns
a tagged error dictionary with no `id` key, so the loop reads its identity as
`None`; whenever `last_current_id` is already `some v`, that `None` compares
as new, the error dictionary is passed to `transform_data`, which raises
`KeyError` on the missing `pkMeasurement`, and — the budget being positive —
the loop body reports the error, sleeps, and decrements the shared retry
budget instead of silently skipping the failure as a duplicate. -/
theorem fetch_failure_counts_against_budget (st : LoopState) (v : Json)
    (dbOk : Bool) (o : HttpOutcome)
    (hlast : st.last = some v)
    (hfail : (∃ c, o = .httpError c) ∨ (∃ m, o = .transportError m)) :
    (fetch_data "data" o).hasKey "id" = false ∧
    (fetch_data "data" o).getOpt "id" = .ok none ∧
    fetch_and_process_data dbOk st.last o =
      ([.dataFetch], .error (.keyError "pkMeasurement")) ∧
    (0 < st.retries →
      loopStep st (o, dbOk) =
        ([.dataFetch, .reportError, .reportRetrying, .sleep 5],
         ⟨st.retries - 1, st.last⟩, false)) := by
  rcases hfail with ⟨c, rfl⟩ | ⟨m, rfl⟩
  · have h1 : (fetch_data "data" (HttpOutcome.httpError c)).hasKey "id" = false := by
      simp [fetch_data, Json.hasKey, lookupField]
    have h2 : (fetch_data "data" (HttpOutcome.httpError c)).getOpt "id" = .ok none := by
      simp [fetch_data, Json.getOpt, lookupField]
    have h3 : fetch_and_process_data dbOk st.last (HttpOutcome.httpError c) =
        ([.dataFetch], .error (.keyError "pkMeasurement")) := by
      rw [fetch_and_process_data, h2, hlast]
      simp [fetch_data, transform_data, getFields, exceptMapM, measurementKeys,
        Json.getItem, lookupField]
    refine ⟨h1, h2, h3, fun hr => ?_⟩
    simp [loopStep, h3, hr]
  · have h1 : (fetch_data "data" (HttpOutcome.transportError m)).hasKey "id" = false := by
      simp [fetch_data, Json.hasKey, lookupField]
    have h2 : (fetch_data "data" (HttpOutcome.transportError m)).getOpt "id" = .ok none := by
      simp [fetch_data, Json.getOpt, lookupField]
    have h3 : fetch_and_process_data dbOk st.last (HttpOutcome.transportError m) =
        ([.dataFetch], .error (.keyError "pkMeasurement")) := by
      rw [fetch_and_process_data, h2, hlast]
      simp [fetch_data, transform_data, getFields, exceptMapM, measurementKeys,
        Json.getItem, lookupField]
    refine ⟨h1, h2, h3, fun hr => ?_⟩
    simp [loopStep, h3, hr]

theorem fetch_failure_counts_against_budget_witness :
    ((∃ c, HttpOutcome.httpError 500 = HttpOutcome.httpError c) ∨
      (∃ m, HttpOutcome.httpError 500 = HttpOutcome.transportError m)) ∧
    ((fetch_data "data" (HttpOutcome.httpError 500)).hasKey "id" = false ∧
     (fetch_data "data" (HttpOutcome.httpError 500)).getOpt "id" = .ok none ∧
     fetch_and_process_data true (some (Json.int 1)) (HttpOutcome.httpError 500) =
       ([.dataFetch], .error (.keyError "pkMeasurement")) ∧
     (0 < (10 : Nat) →
       loopStep ⟨10, some (Json.int 1)⟩ (HttpOutcome.httpError 500, true) =
         ([.dataFetch, .reportError, .reportRetrying, .sleep 5],
          ⟨10 - 1, some (Json.int 1)⟩, false))) :=
  ⟨Or.inl ⟨500, rfl⟩,
   fetch_failure_counts_against_budget ⟨10, some (Json.int 1)⟩ (Json.int 1) true
     (HttpOutcome.httpError 500) rfl (Or.inl ⟨500, rfl⟩)⟩

end WimPipeline
